import Mathlib

/-!
Verification development for the cng4 command bus and panel compositor.

The definitions below are a shallow embedding of the Rust sources:
  - `src/utils/panel.rs`   (PanelType, PanelInfo, caculate_position)
  - `src/messages.rs`      (Action, Key enums and their strum serializations)
  - `src/utils/common.rs`  (MsgTemplate message formatting)
  - `src/plugins/plugins_main.rs`
       (Plugin::handle_action_gui, Plugins::handle_cmd and the reserved
        actions insert / insert_panel / key / popup / redraw / show / help)

Rust u16 values are modelled as Nat (the u16 range 0..65536 is stated as a
hypothesis where it matters).  Rust panics (unwrap, index out of bounds,
remainder by zero, `panic!` defaults) are modelled as an explicit `panicked`
outcome.  The effects a handler performs — log lines routed through
`msgs::info` / `msgs::warn`, re-injected bus commands sent through
`msgs::cmd`, terminal draws, and invocations of a concrete plugin's
`handle_action` — are collected in an explicit emission list.
-/

namespace Cng4

/-- The command routing marker `consts::P`.  Modelled from the spec: the file
`src/consts.rs` is referenced by `main.rs` but absent from the dump; the spec
fixes the protocol as `p <component> <action> [args...]`. -/
def constP : String := "p"

/-- `PanelType` from `src/utils/panel.rs` (strum serializations
"normal" / "popup"). -/
inductive PanelType where
  | Normal
  | Popup
deriving DecidableEq, Repr

/-- `PanelType::from_str` as derived by strum `EnumString`. -/
def PanelType.fromStr : String → Option PanelType
  | "normal" => some .Normal
  | "popup" => some .Popup
  | _ => none

/-- `PanelInfo` from `src/utils/panel.rs`; the four u16 geometry fields,
percentages of the usable terminal area. -/
structure PanelInfo where
  panel_type : PanelType
  x : Nat
  y : Nat
  w : Nat
  h : Nat
deriving DecidableEq, Repr

/-- `Action` from `src/messages.rs`: the closed action vocabulary. -/
inductive Action where
  | Log
  | Insert
  | Show
  | Update
  | Download
  | Help
  | Gui
  | OutputUpdate
  | OutputPush
  | Key
  | Restart
  | Disconnected
  | Publish
  | Add
  | Cmd
  | Upload
  | Remove
  | Dest
  | Open
  | Popup
  | InsertPanel
  | Redraw
  | Sync
deriving DecidableEq, Repr

/-- `Action::from_str` as derived by strum `EnumString` with the serialize
strings of `src/messages.rs`. -/
def Action.fromStr : String → Option Action
  | "log" => some .Log
  | "insert" => some .Insert
  | "show" => some .Show
  | "update" => some .Update
  | "download" => some .Download
  | "help" => some .Help
  | "gui" => some .Gui
  | "output_update" => some .OutputUpdate
  | "output_push" => some .OutputPush
  | "key" => some .Key
  | "restart" => some .Restart
  | "disconnected" => some .Disconnected
  | "publish" => some .Publish
  | "add" => some .Add
  | "cmd" => some .Cmd
  | "upload" => some .Upload
  | "remove" => some .Remove
  | "dest" => some .Dest
  | "open" => some .Open
  | "popup" => some .Popup
  | "insert_panel" => some .InsertPanel
  | "redraw" => some .Redraw
  | "sync" => some .Sync
  | _ => none

/-- `Action`'s strum `Display` / `AsRefStr` serialization. -/
def Action.toStr : Action → String
  | .Log => "log"
  | .Insert => "insert"
  | .Show => "show"
  | .Update => "update"
  | .Download => "download"
  | .Help => "help"
  | .Gui => "gui"
  | .OutputUpdate => "output_update"
  | .OutputPush => "output_push"
  | .Key => "key"
  | .Restart => "restart"
  | .Disconnected => "disconnected"
  | .Publish => "publish"
  | .Add => "add"
  | .Cmd => "cmd"
  | .Upload => "upload"
  | .Remove => "remove"
  | .Dest => "dest"
  | .Open => "open"
  | .Popup => "popup"
  | .InsertPanel => "insert_panel"
  | .Redraw => "redraw"
  | .Sync => "sync"

/-- `Key` from `src/messages.rs`: the closed key-code vocabulary. -/
inductive Key where
  | Tab
  | Up
  | Down
  | Left
  | Right
  | AltC
  | AltUp
  | AltDown
  | AltLeft
  | AltRight
  | AltW
  | AltS
  | AltA
  | AltD
  | ControlX
  | ControlS
  | Home
  | End
deriving DecidableEq, Repr

/-- `Key::from_str` as derived by strum `EnumString`. -/
def Key.fromStr : String → Option Key
  | "tab" => some .Tab
  | "up" => some .Up
  | "down" => some .Down
  | "left" => some .Left
  | "right" => some .Right
  | "alt_c" => some .AltC
  | "alt_up" => some .AltUp
  | "alt_down" => some .AltDown
  | "alt_left" => some .AltLeft
  | "alt_right" => some .AltRight
  | "alt_w" => some .AltW
  | "alt_s" => some .AltS
  | "alt_a" => some .AltA
  | "alt_d" => some .AltD
  | "ctrl_x" => some .ControlX
  | "ctrl_s" => some .ControlS
  | "home" => some .Home
  | "end" => some .End
  | _ => none

/-- `Key`'s strum `Display` serialization. -/
def Key.toStr : Key → String
  | .Tab => "tab"
  | .Up => "up"
  | .Down => "down"
  | .Left => "left"
  | .Right => "right"
  | .AltC => "alt_c"
  | .AltUp => "alt_up"
  | .AltDown => "alt_down"
  | .AltLeft => "alt_left"
  | .AltRight => "alt_right"
  | .AltW => "alt_w"
  | .AltS => "alt_s"
  | .AltA => "alt_a"
  | .AltD => "alt_d"
  | .ControlX => "ctrl_x"
  | .ControlS => "ctrl_s"
  | .Home => "home"
  | .End => "end"

/-- `MsgTemplate::UnsupportedAction.format` from `src/utils/common.rs`. -/
def msgUnsupportedAction (arg1 : String) : String :=
  "Unsupported action: `" ++ arg1 ++ "`"

/-- `MsgTemplate::MissingParameters.format` from `src/utils/common.rs`. -/
def msgMissingParameters (arg1 arg2 arg3 : String) : String :=
  "Missing " ++ arg1 ++ " for `" ++ arg2 ++ "` command: `" ++ arg3 ++ "`"

/-- `MsgTemplate::InvalidParameters.format` from `src/utils/common.rs`. -/
def msgInvalidParameters (arg1 arg2 arg3 : String) : String :=
  "Invalid " ++ arg1 ++ " for `" ++ arg2 ++ "` command: `" ++ arg3 ++ "`"

/-- Log level of an emitted log line (`log::Level` restricted to the two
levels the dispatcher uses). -/
inductive Level where
  | Info
  | Warn
deriving DecidableEq, Repr

/-- One observable effect of processing a command:
  - `log`: a log line sent through `msgs::info` / `msgs::warn` (which encode
    it as a `p log log <level> '<msg>'` bus command; we record level, emitting
    module and message text);
  - `cmd`: a command re-injected on the bus through `msgs::cmd`;
  - `redraw`: one `terminal.draw` call;
  - `handlerCall`: an invocation of a registered plugin's `handle_action`
    with the resolved action and the full token list. -/
inductive Emit where
  | log (lvl : Level) (module : String) (msg : String)
  | cmd (module : String) (text : String)
  | redraw
  | handlerCall (plugin : String) (action : Action) (parts : List String)
deriving DecidableEq, Repr

/-- One registry entry: a live plugin.  `panelInfo` is `some` when the
concrete plugin overrides `Plugin::panel_info` (its current geometry state),
and `none` when the trait default — which panics — would run. -/
structure PluginEntry where
  pname : String
  panelInfo : Option PanelInfo
deriving DecidableEq, Repr

/-- The `Plugins` registry / compositor state from
`src/plugins/plugins_main.rs`.  `hasTerminal` models
`terminal : Option<DefaultTerminal>` being `Some` (GUI mode).
The channel handles, mode and script fields play no role in dispatch. -/
structure Plugins where
  plugins : List PluginEntry
  panels : List String
  active_panel : Nat
  active_popup : Option Nat
  hasTerminal : Bool
deriving DecidableEq, Repr

/-- `Plugins::get_plugin`: first registered plugin with the given name. -/
def getPlugin (s : Plugins) (name : String) : Option PluginEntry :=
  s.plugins.find? (fun p => p.pname == name)

/-- Result of processing one command (or a sequence): either a new state
together with the emitted effects in order, or a Rust panic, or
non-termination of the handler. -/
inductive Outcome where
  | ok (s : Plugins) (emits : List Emit)
  | panicked
  | diverge
deriving DecidableEq, Repr

/-- Accumulate digits of a decimal numeral; fails on any non-digit. -/
def parseDigitsAux (acc : Nat) : List Char → Option Nat
  | [] => some acc
  | c :: cs =>
      if c.isDigit then parseDigitsAux (acc * 10 + (c.toNat - 48)) cs else none

/-- Rust `str::parse::<u16>`: an optional leading `+`, then one or more
ASCII digits, value at most 65535 (larger values are an overflow error,
modelled by the final bound check, which rejects exactly the same inputs). -/
def parseU16 (s : String) : Option Nat :=
  let cs := match s.data with
    | '+' :: rest => rest
    | cs => cs
  match cs with
  | [] => none
  | _ =>
    match parseDigitsAux 0 cs with
    | none => none
    | some v => if v ≤ 65535 then some v else none

/-- An info log line emitted by the registry (module `plugins`). -/
def infoP (msg : String) : Emit := .log .Info "plugins" msg

/-- A warning log line emitted by the registry (module `plugins`). -/
def warnP (msg : String) : Emit := .log .Warn "plugins" msg

/-- Whether drawing one named panel avoids the panicking `panel_info`
trait default: either the name resolves to no plugin (the draw cycle's
`if let` skips it) or the plugin overrides `panel_info`. -/
def drawPred (s : Plugins) (p : String) : Bool :=
  match getPlugin s p with
  | none => true
  | some e => e.panelInfo.isSome

/-- The draw cycle `Plugins::draw` calls `plugin.panel_info()` on every
panel whose name resolves to a plugin; a plugin that does not override
`panel_info` hits the panicking trait default.  Panels without a matching
plugin are skipped by the `if let`. -/
def drawOk (s : Plugins) : Bool :=
  s.panels.all (drawPred s)

/-- `Plugins::redraw`: `self.terminal.take().unwrap()` panics when no
terminal is installed (CLI mode); otherwise one `terminal.draw` runs the
draw cycle, which panics if any panel's plugin lacks `panel_info`
(see `drawOk`).  The modelled state is unchanged by drawing. -/
def redraw (s : Plugins) : Outcome :=
  if s.hasTerminal && drawOk s then .ok s [.redraw] else .panicked

/-- Result of the default `Plugin::handle_action_gui`: a parsed `PanelInfo`
to be stored by the caller, a recoverable `anyhow` error, or a panic from
one of the `.unwrap()` calls.  Effects already emitted before the outcome
are carried alongside. -/
inductive GuiOutcome where
  | ok (info : PanelInfo) (emits : List Emit)
  | err (emits : List Emit)
  | panicked (emits : List Emit)
deriving DecidableEq, Repr

/-- Default `Plugin::handle_action_gui` from `src/plugins/plugins_main.rs`:
if all five fields `cmd_parts[3..8]` are present, first emit the
`p plugins insert_panel <name>` registration command, then parse the panel
type and the four numerals with `.unwrap()` — any parse failure panics;
on success return the five values as the new `PanelInfo`.  With any field
missing, warn and return an error. -/
def handle_action_gui (name : String) (parts : List String) : GuiOutcome :=
  match parts[3]?, parts[4]?, parts[5]?, parts[6]?, parts[7]? with
  | some pt, some x, some y, some w, some h =>
    let es := [Emit.cmd name
      (constP ++ " plugins " ++ Action.InsertPanel.toStr ++ " " ++ name)]
    match PanelType.fromStr pt with
    | none => .panicked es
    | some ptv =>
      match parseU16 x with
      | none => .panicked es
      | some xv =>
        match parseU16 y with
        | none => .panicked es
        | some yv =>
          match parseU16 w with
          | none => .panicked es
          | some wv =>
            match parseU16 h with
            | none => .panicked es
            | some hv => .ok ⟨ptv, xv, yv, wv, hv⟩ es
  | _, _, _, _, _ =>
    .err [Emit.log .Warn name
      (msgMissingParameters "<panel_type> <x> <y> <width> <height>"
        Action.Gui.toStr (String.intercalate " " parts))]

/-- `Plugins::handle_action_insert_panel`: append the panel name if absent
and redraw synchronously; a duplicate name is a warning and no change. -/
def handle_action_insert_panel (s : Plugins) (parts : List String) : Outcome :=
  let e0 := infoP Action.InsertPanel.toStr
  match parts[3]? with
  | some panel =>
    if s.panels.contains panel then
      .ok s [e0, warnP ("Panel `" ++ panel ++ "` is already inserted.")]
    else
      let s' := { s with panels := s.panels ++ [panel] }
      match redraw s' with
      | .ok s'' es => .ok s'' (e0 :: infoP ("  - `" ++ panel ++ "`") :: es)
      | r => r
  | none =>
    .ok s [e0, warnP (msgMissingParameters "<panel>" Action.InsertPanel.toStr
      (String.intercalate " " parts))]

/-- Result of the tab-cycling loop body. -/
inductive TabRes where
  | stop (i : Nat)
  | panicked
  | noFuel
deriving DecidableEq, Repr

/-- The `loop` inside `Plugins::handle_action_key_tab`, with explicit fuel.
The loop's entire state is the current index `i` (panels and plugins are not
mutated), so if `panels.length + 1` iterations pass without a `break` some
index was visited twice and the Rust loop runs forever; `noFuel` with that
fuel therefore captures divergence exactly.  A panel name without a matching
plugin leaves the index unchanged (the `if let` falls through); a plugin
without `panel_info` panics; a popup-typed panel advances the index modulo
the panel count; a normal-typed panel breaks. -/
def tabLoop (s : Plugins) : Nat → Nat → TabRes
  | _, 0 => .noFuel
  | i, fuel + 1 =>
    match getPlugin s (s.panels.getD i "") with
    | none => tabLoop s i fuel
    | some e =>
      match e.panelInfo with
      | none => .panicked
      | some pi =>
        match pi.panel_type with
        | .Popup => tabLoop s ((i + 1) % s.panels.length) fuel
        | .Normal => .stop i

/-- `Plugins::handle_action_key_tab`: with a popup active, only redraw;
otherwise advance `active_panel` modulo the panel count (a remainder by
zero — empty panel list — panics), skip popup-typed panels, then redraw. -/
def handle_action_key_tab (s : Plugins) : Outcome :=
  match s.active_popup with
  | some _ => redraw s
  | none =>
    if s.panels.length = 0 then .panicked
    else
      match tabLoop s ((s.active_panel + 1) % s.panels.length)
          (s.panels.length + 1) with
      | .stop i => redraw { s with active_panel := i }
      | .panicked => .panicked
      | .noFuel => .diverge

/-- `Plugins::handle_action_key_key`: route the key to the active popup's
panel if one is active, else to the active panel; the routed command is
`p <panel> key <key>`.  Indexing an absent panel (e.g. the empty panel
list) panics. -/
def handle_action_key_key (s : Plugins) (key : Key) : Outcome :=
  match s.active_popup with
  | none =>
    match s.panels[s.active_panel]? with
    | none => .panicked
    | some panel =>
      .ok s [.cmd "plugins"
        (constP ++ " " ++ panel ++ " " ++ Action.Key.toStr ++ " " ++ key.toStr)]
  | some ap =>
    match s.panels[ap]? with
    | none => .panicked
    | some panel =>
      .ok s [.cmd "plugins"
        (constP ++ " " ++ panel ++ " " ++ Action.Key.toStr ++ " " ++ key.toStr)]

/-- `Plugins::handle_action_key`: parse `cmd_parts[3]` as a key code; the
sixteen routed keys go to `handle_action_key_key`, `tab` is intercepted by
`handle_action_key_tab`, and a missing argument, an unparseable code, or
`ctrl_s` fall through to `()` — nothing is emitted and nothing changes. -/
def handle_action_key (s : Plugins) (parts : List String) : Outcome :=
  match parts[3]? with
  | none => .ok s []
  | some kstr =>
    match Key.fromStr kstr with
    | none => .ok s []
    | some k =>
      match k with
      | .Tab => handle_action_key_tab s
      | .ControlS => .ok s []
      | _ => handle_action_key_key s k

/-- `Plugins::handle_action_popup`: always log the `popup` info line; with a
name argument, set `active_popup` to the index of the first panel with that
name (any panel, the type is not checked) and leave it unchanged — without
any warning — when no panel matches; with no argument clear the popup.
Then redraw. -/
def handle_action_popup (s : Plugins) (parts : List String) : Outcome :=
  let e0 := infoP Action.Popup.toStr
  let s' := match parts[3]? with
    | some panel =>
      match s.panels.findIdx? (fun p => p == panel) with
      | some idx => { s with active_popup := some idx }
      | none => s
    | none => { s with active_popup := none }
  match redraw s' with
  | .ok s'' es => .ok s'' (e0 :: es)
  | r => r

/-- The names accepted by the factory `match` in `Plugins::insert`. -/
def knownModules : List String :=
  ["log", "cfg", "system", "cli", "web", "music", "gui", "mqtt",
   "devices", "infos", "script", "weather", "editor", "command", "wol", "ping"]

/-- Initial `panel_info` of each insertable plugin's constructor:
`command`, `editor`, `infos`, `log` and `mqtt` start as a Normal panel at
all-zero geometry; the other insertable plugins do not override
`panel_info`. -/
def initPluginPanel : String → Option PanelInfo
  | "log" => some ⟨.Normal, 0, 0, 0, 0⟩
  | "mqtt" => some ⟨.Normal, 0, 0, 0, 0⟩
  | "infos" => some ⟨.Normal, 0, 0, 0, 0⟩
  | "editor" => some ⟨.Normal, 0, 0, 0, 0⟩
  | "command" => some ⟨.Normal, 0, 0, 0, 0⟩
  | _ => none

/-- `Plugins::insert`: reject a duplicate name, construct a known module and
append it, reject an unknown name.  Constructor-side effects (the new
plugin's own log lines, spawned tasks, I/O failures) are outside the model;
no claim depends on them. -/
def insertPlugin (s : Plugins) (plugin : String) : Except String Plugins :=
  if (getPlugin s plugin).isSome then
    .error ("Plugin `" ++ plugin ++ "` is already inserted.")
  else if knownModules.contains plugin then
    .ok { s with plugins := s.plugins ++ [⟨plugin, initPluginPanel plugin⟩] }
  else
    .error ("Unknown plugin name: `" ++ plugin ++ "`")

/-- `Plugins::handle_action_insert`: log, then insert the named plugin,
warning on any `insert` error; a missing argument is a warning. -/
def handle_action_insert (s : Plugins) (parts : List String) : Outcome :=
  let e0 := infoP Action.Insert.toStr
  match parts[3]? with
  | some plugin =>
    let e1 := infoP ("  - `" ++ plugin ++ "`")
    match insertPlugin s plugin with
    | .ok s' => .ok s' [e0, e1]
    | .error e => .ok s [e0, e1, warnP e]
  | none =>
    .ok s [e0, warnP (msgMissingParameters "<plugin>" Action.Insert.toStr
      (String.intercalate " " parts))]

/-- `Plugins::handle_action_show`: enumerate plugins and panels as info
lines; no state change. -/
def handle_action_show (s : Plugins) : Outcome :=
  .ok s ([infoP Action.Show.toStr, infoP "  - Plugins:"]
    ++ s.plugins.map (fun p => infoP ("    - " ++ p.pname))
    ++ (if s.panels.isEmpty then
          [infoP "  - Panels:", infoP "    - <none>"]
        else
          infoP "  - Panels:" :: s.panels.map (fun p => infoP ("    - " ++ p))))

/-- `Plugins::handle_action_help`. -/
def handle_action_help (s : Plugins) : Outcome :=
  .ok s [infoP Action.Help.toStr, infoP ("  " ++ Action.Insert.toStr ++ " <plugin>")]

/-- `Plugins::my_handle_action`: the registry's reserved actions; any other
action is an `Unsupported action` warning. -/
def my_handle_action (s : Plugins) (action : Action) (parts : List String) :
    Outcome :=
  match action with
  | .Help => handle_action_help s
  | .Show => handle_action_show s
  | .Insert => handle_action_insert s parts
  | .InsertPanel => handle_action_insert_panel s parts
  | .Redraw => redraw s
  | .Key => handle_action_key s parts
  | .Popup => handle_action_popup s parts
  | _ => .ok s [warnP (msgUnsupportedAction action.toStr)]

/-- The local `get_action` of `Plugins::handle_cmd`: `cmd_parts[2]` parsed
against the action vocabulary; a missing token or a failed parse is an
error message naming the offense. -/
def get_action (parts : List String) : Except String Action :=
  match parts[2]? with
  | none => .error (msgMissingParameters "<action>"
      (constP ++ " <plugin_name> <action> ...") (String.intercalate " " parts))
  | some a =>
    match Action.fromStr a with
    | none => .error (msgInvalidParameters ("<action> (`" ++ a ++ "`)")
        (constP ++ " <plugin_name> <action> ...") (String.intercalate " " parts))
    | some act => .ok act

/-- `Plugins::handle_cmd` after tokenization: resolve the destination
(`cmd_parts[1]`), route the registry's own name to `my_handle_action`,
route a registered plugin to its `handle_action` (recorded as a
`handlerCall` emission), and warn on a missing name, an unknown plugin,
or an unresolvable action. -/
def handle_cmd_parts (s : Plugins) (parts : List String) : Outcome :=
  match parts[1]? with
  | none => .ok s [warnP (msgMissingParameters "<plugin_name>"
      (constP ++ " <plugin_name> <action> ...") (String.intercalate " " parts))]
  | some plugin_name =>
    if plugin_name = "plugins" then
      match get_action parts with
      | .error err => .ok s [warnP err]
      | .ok a => my_handle_action s a parts
    else
      match getPlugin s plugin_name with
      | some _ =>
        match get_action parts with
        | .error err => .ok s [warnP err]
        | .ok a => .ok s [.handlerCall plugin_name a parts]
      | none => .ok s [warnP (msgInvalidParameters
          ("<plugin_name> (`" ++ plugin_name ++ "`)")
          (constP ++ " <plugin_name> <action> ...")
          (String.intercalate " " parts))]

/-- `Plugins::handle_cmd` including the `shell_words::split` step: the
tokenizer is an external crate, so its result is passed in (`none` models a
split error, e.g. an unterminated quote), and a failure is a warning naming
the raw command text. -/
def handle_cmd (s : Plugins) (tokenized : Option (List String)) (raw : String) :
    Outcome :=
  match tokenized with
  | none => .ok s [warnP ("Failed to parse cmd `" ++ raw ++ "`.")]
  | some parts => handle_cmd_parts s parts

/-- Process a list of already-tokenized commands in order, accumulating
emissions; a panic or divergence aborts the sequence. -/
def runCmds (s : Plugins) : List (List String) → Outcome
  | [] => .ok s []
  | c :: rest =>
    match handle_cmd_parts s c with
    | .ok s' es =>
      match runCmds s' rest with
      | .ok s'' es' => .ok s'' (es ++ es')
      | r => r
    | .panicked => .panicked
    | .diverge => .diverge

/-- Exact value of the f32 expression
`(n as f32 * p as f32 / 100.0).round() as u16` from
`src/utils/panel.rs::caculate_position`, on the u16 domain.
Justification that the floating-point computation is exact there:
for `n ≤ 65535` and `p ≤ 100` the product `n * p ≤ 6553500 < 2^24` is
exactly representable in f32; a tie value `k + 1/2` with `k < 65536` has a
numerator `2k + 1 < 2^24`, so it is also exactly representable; any
quotient `n*p/100` that is not exactly a tie differs from every tie by at
least `1/100`, while the correctly rounded f32 quotient is within half an
ulp (at most `2^-8` below 65536) of the true value — so the f32 quotient
rounds (half away from zero, i.e. half up on nonnegative values) to the
same integer as the exact rational `n*p/100`, which is
`⌊(2*n*p + 100) / 200⌋`. -/
def rnd100 (n p : Nat) : Nat := (2 * (n * p) + 100) / 200

/-- `caculate_position` from `src/utils/panel.rs`: scale the percentage
geometry by the terminal width and by the usable height (frame height minus
the 3-row reserved strip). -/
def caculate_position (width height x y w h : Nat) : Nat × Nat × Nat × Nat :=
  let usable := height - 3
  (rnd100 width x, rnd100 usable y, rnd100 width w, rnd100 usable h)

/-- Number of warning lines among the emitted effects. -/
def warnCount (es : List Emit) : Nat :=
  (es.filter fun e => match e with
    | .log .Warn _ _ => true
    | _ => false).length

/-- The panel type the compositor sees for a named panel: the type stored in
the owning plugin's `panel_info`, when the plugin exists and implements it. -/
def panelTypeOf (s : Plugins) (name : String) : Option PanelType :=
  match getPlugin s name with
  | none => none
  | some e => e.panelInfo.map (fun pinfo => pinfo.panel_type)

/-- The panel type designated by index `i` of `panel_order`. -/
def panelTypeAt (s : Plugins) (i : Nat) : Option PanelType :=
  panelTypeOf s (s.panels.getD i "")

/-- A concrete registry state used by the witnesses: one `log` plugin with
its initial panel geometry, no panels yet, GUI mode. -/
def sW : Plugins :=
  ⟨[⟨"log", some ⟨.Normal, 0, 0, 0, 0⟩⟩], [], 0, none, true⟩

/-- The exact rounding the spec's draw-cycle formula prescribes:
`round(n * p / 100)` over the rationals (`round` is round-half-up, which on
nonnegative values coincides with Rust's round-half-away-from-zero). -/
def specRound (n p : Nat) : ℤ := round ((n * p : ℚ) / 100)

/-- The two kinds of commands claim C2 quantifies over. -/
inductive PanelOp where
  | insPanel (name : String)
  | tabKey
deriving DecidableEq, Repr

/-- The token list each panel operation dispatches. -/
def PanelOp.toCmd : PanelOp → List String
  | .insPanel name => ["p", "plugins", "insert_panel", name]
  | .tabKey => ["p", "plugins", "key", "tab"]

/-- A concrete empty-panel GUI state for the C10 witness. -/
def sE : Plugins := ⟨[], [], 0, none, true⟩

/-- A state with one registered, Normal-typed panel named `log`. -/
def sPop : Plugins :=
  ⟨[⟨"log", some ⟨.Normal, 0, 0, 0, 0⟩⟩], ["log"], 0, none, true⟩

/-- A state with two registered popup-typed panels. -/
def sPop2 : Plugins :=
  ⟨[⟨"editor", some ⟨.Popup, 0, 0, 0, 0⟩⟩, ⟨"command", some ⟨.Popup, 0, 0, 0, 0⟩⟩],
   ["editor", "command"], 0, none, true⟩

/-- The state reached in the C2 witness run. -/
def sTabFinal : Plugins :=
  ⟨[⟨"log", some ⟨.Normal, 0, 0, 0, 0⟩⟩], ["log"], 0, none, true⟩

/- ### Dispatch-shape lemmas -/

lemma dispatch_key_arg (s : Plugins) (arg : String) :
    handle_cmd_parts s ["p", "plugins", "key", arg]
      = handle_action_key s ["p", "plugins", "key", arg] := rfl

lemma dispatch_key_tab (s : Plugins) :
    handle_cmd_parts s ["p", "plugins", "key", "tab"]
      = handle_action_key_tab s := rfl

lemma dispatch_key_bare (s : Plugins) :
    handle_cmd_parts s ["p", "plugins", "key"]
      = handle_action_key s ["p", "plugins", "key"] := rfl

lemma dispatch_insert_panel (s : Plugins) (name : String) :
    handle_cmd_parts s ["p", "plugins", "insert_panel", name]
      = handle_action_insert_panel s ["p", "plugins", "insert_panel", name] := rfl

lemma dispatch_popup_arg (s : Plugins) (name : String) :
    handle_cmd_parts s ["p", "plugins", "popup", name]
      = handle_action_popup s ["p", "plugins", "popup", name] := rfl

lemma dispatch_popup_bare (s : Plugins) :
    handle_cmd_parts s ["p", "plugins", "popup"]
      = handle_action_popup s ["p", "plugins", "popup"] := rfl

/-- Core of the unparseable-action contract: with a resolvable destination
and a missing or unparseable action token, dispatch leaves the state
untouched and emits exactly one warning, whose text contains the offending
token when one is present. -/
lemma badActionWarnCore (s : Plugins) (parts : List String) (name : String)
    (h1 : parts[1]? = some name)
    (hdest : name = "plugins" ∨ (getPlugin s name).isSome = true)
    (hbad : ∀ tok, parts[2]? = some tok → Action.fromStr tok = none) :
    ∃ m, handle_cmd_parts s parts = .ok s [warnP m] ∧
      ∀ tok, parts[2]? = some tok → ∃ pre post, m = pre ++ tok ++ post := by
  have herr : ∃ err, get_action parts = .error err ∧
      ∀ tok, parts[2]? = some tok → ∃ pre post, err = pre ++ tok ++ post := by
    cases h2 : parts[2]? with
    | none =>
      refine ⟨msgMissingParameters "<action>"
        (constP ++ " <plugin_name> <action> ...") (String.intercalate " " parts),
        by simp [get_action, h2], ?_⟩
      intro tok htok
      cases htok
    | some tok =>
      have hb := hbad tok h2
      refine ⟨msgInvalidParameters ("<action> (`" ++ tok ++ "`)")
        (constP ++ " <plugin_name> <action> ...") (String.intercalate " " parts),
        by simp [get_action, h2, hb], ?_⟩
      intro tok2 htok2
      cases htok2
      refine ⟨"Invalid " ++ "<action> (`",
        "`)" ++ " for `" ++ (constP ++ " <plugin_name> <action> ...")
          ++ "` command: `" ++ String.intercalate " " parts ++ "`", ?_⟩
      simp only [msgInvalidParameters, String.append_assoc]
  obtain ⟨err, he, hcont⟩ := herr
  refine ⟨err, ?_, hcont⟩
  by_cases hp : name = "plugins"
  · subst hp
    simp [handle_cmd_parts, h1, he]
  · have hsome : (getPlugin s name).isSome = true := hdest.resolve_left hp
    obtain ⟨e, hee⟩ := Option.isSome_iff_exists.mp hsome
    simp [handle_cmd_parts, h1, hp, hee, he]

/-- Claim C1: for every command whose action token (token 2) is missing or
does not parse into the `Action` vocabulary, and whose destination
(token 1) is the registry's reserved name `plugins` or a registered plugin,
dispatch emits exactly one warning — naming the offending token when one is
present — invokes no plugin handler (the single emission is the warning,
beside which no `handlerCall` occurs), and leaves the state unchanged. -/
theorem unparseable_action_single_warning (s : Plugins) (parts : List String)
    (name : String) (h1 : parts[1]? = some name)
    (hdest : name = "plugins" ∨ (getPlugin s name).isSome = true)
    (hbad : ∀ tok, parts[2]? = some tok → Action.fromStr tok = none) :
    ∃ m, handle_cmd_parts s parts = .ok s [warnP m] ∧
      ∀ tok, parts[2]? = some tok → ∃ pre post, m = pre ++ tok ++ post :=
  badActionWarnCore s parts name h1 hdest hbad

/-- Witness for C1: the concrete command `p plugins bogus`. -/
theorem unparseable_action_single_warning_witness :
    ∃ m, handle_cmd_parts sW ["p", "plugins", "bogus"] = .ok sW [warnP m] ∧
      ∀ tok, (["p", "plugins", "bogus"][2]? = some tok →
        ∃ pre post, m = pre ++ tok ++ post) :=
  unparseable_action_single_warning sW ["p", "plugins", "bogus"] "plugins" rfl
    (Or.inl rfl)
    (by intro tok htok; cases htok; rfl)

/-- Counterexample to claim C9: the command `p plugins key` (reserved `key`
action, key-code argument missing) is processed to completion with no state
change, no handler invocation and an empty emission list — in particular
zero warning lines — so a command can disappear without a trace. -/
theorem silent_key_drop_counterexample :
    handle_cmd_parts sW ["p", "plugins", "key"] = .ok sW [] ∧
      warnCount [] = 0 :=
  ⟨rfl, rfl⟩

/-- Claim C9 (amended): every dispatch-level failure — tokenization error,
missing destination, unknown destination, missing or unknown action — emits
exactly one warning; but the reserved `key` action silently drops a command
whose key-code argument is missing, unparseable, or the unrouted `ctrl_s`:
no warning, no handler call, no state change. -/
theorem dispatch_warning_coverage :
    (∀ (s : Plugins) (raw : String), handle_cmd s none raw
        = .ok s [warnP ("Failed to parse cmd `" ++ raw ++ "`.")]) ∧
    (∀ (s : Plugins) (parts : List String), parts[1]? = none →
        ∃ m, handle_cmd_parts s parts = .ok s [warnP m]) ∧
    (∀ (s : Plugins) (parts : List String) (name : String),
        parts[1]? = some name →
        (name = "plugins" ∨ (getPlugin s name).isSome = true) →
        (∀ tok, parts[2]? = some tok → Action.fromStr tok = none) →
        ∃ m, handle_cmd_parts s parts = .ok s [warnP m]) ∧
    (∀ (s : Plugins) (parts : List String) (name : String),
        parts[1]? = some name → ¬ name = "plugins" →
        getPlugin s name = none →
        ∃ m, handle_cmd_parts s parts = .ok s [warnP m]) ∧
    (∀ s : Plugins, handle_cmd_parts s ["p", "plugins", "key"] = .ok s []) ∧
    (∀ (s : Plugins) (kstr : String), Key.fromStr kstr = none →
        handle_cmd_parts s ["p", "plugins", "key", kstr] = .ok s []) ∧
    (∀ s : Plugins,
        handle_cmd_parts s ["p", "plugins", "key", "ctrl_s"] = .ok s []) := by
  refine ⟨?_, ?_, ?_, ?_, ?_, ?_, ?_⟩
  · intro s raw
    rfl
  · intro s parts h
    exact ⟨msgMissingParameters "<plugin_name>"
      (constP ++ " <plugin_name> <action> ...") (String.intercalate " " parts),
      by simp [handle_cmd_parts, h]⟩
  · intro s parts name h1 hdest hbad
    obtain ⟨m, hm, _⟩ := badActionWarnCore s parts name h1 hdest hbad
    exact ⟨m, hm⟩
  · intro s parts name h1 hne hnone
    exact ⟨msgInvalidParameters ("<plugin_name> (`" ++ name ++ "`)")
      (constP ++ " <plugin_name> <action> ...") (String.intercalate " " parts),
      by simp [handle_cmd_parts, h1, hne, hnone]⟩
  · intro s
    rfl
  · intro s kstr hk
    rw [dispatch_key_arg]
    simp [handle_action_key, hk]
  · intro s
    rfl

/-- Witness for C9 (amended): each conjunct at a concrete input. -/
theorem dispatch_warning_coverage_witness :
    (handle_cmd sW none "p \"unterminated"
        = .ok sW [warnP "Failed to parse cmd `p \"unterminated`."]) ∧
    (∃ m, handle_cmd_parts sW ["p"] = .ok sW [warnP m]) ∧
    (∃ m, handle_cmd_parts sW ["p", "plugins", "bogus2"] = .ok sW [warnP m]) ∧
    (∃ m, handle_cmd_parts sW ["p", "nobody", "show"] = .ok sW [warnP m]) ∧
    (handle_cmd_parts sW ["p", "plugins", "key"] = .ok sW []) ∧
    (handle_cmd_parts sW ["p", "plugins", "key", "sideways"] = .ok sW []) ∧
    (handle_cmd_parts sW ["p", "plugins", "key", "ctrl_s"] = .ok sW []) :=
  ⟨dispatch_warning_coverage.1 sW "p \"unterminated",
   dispatch_warning_coverage.2.1 sW ["p"] rfl,
   dispatch_warning_coverage.2.2.1 sW ["p", "plugins", "bogus2"] "plugins" rfl
     (Or.inl rfl) (by intro tok htok; cases htok; rfl),
   dispatch_warning_coverage.2.2.2.1 sW ["p", "nobody", "show"] "nobody" rfl
     (by decide) rfl,
   dispatch_warning_coverage.2.2.2.2.1 sW,
   dispatch_warning_coverage.2.2.2.2.2.1 sW "sideways" rfl,
   dispatch_warning_coverage.2.2.2.2.2.2 sW⟩

/-- Claim C10: with an empty panel list and no active popup, the reserved
`key tab` command panics (remainder-by-zero on the panel count), and any
other routed key code panics (indexing the empty panel list); the registry
does not guard these reserved actions against an empty `panel_order`. -/
theorem empty_panels_key_panics (s : Plugins) (hpanels : s.panels = [])
    (hpopup : s.active_popup = none) :
    handle_cmd_parts s ["p", "plugins", "key", "tab"] = .panicked ∧
    (∀ (kstr : String) (k : Key), Key.fromStr kstr = some k →
      k ≠ Key.Tab → k ≠ Key.ControlS →
      handle_cmd_parts s ["p", "plugins", "key", kstr] = .panicked) := by
  constructor
  · rw [dispatch_key_arg]
    show handle_action_key_tab s = _
    simp [handle_action_key_tab, hpopup, hpanels]
  · intro kstr k hk hkt hks
    rw [dispatch_key_arg]
    have : handle_action_key s ["p", "plugins", "key", kstr]
        = match k with
          | .Tab => handle_action_key_tab s
          | .ControlS => .ok s []
          | _ => handle_action_key_key s k := by
      simp [handle_action_key, hk]
    rw [this]
    cases k <;>
      first
      | exact absurd rfl hkt
      | exact absurd rfl hks
      | simp [handle_action_key_key, hpopup, hpanels]

/-- Counterexample to claim C4: the `popup` action activates `log`, whose
panel is Normal-typed, not popup-typed (so activation is not restricted to
popup-typed panels); and a name matching no panel leaves the state
unchanged while emitting no warning at all (only the `popup` info line and
a redraw). -/
theorem popup_type_unchecked_counterexample :
    handle_cmd_parts sPop ["p", "plugins", "popup", "log"]
      = .ok { sPop with active_popup := some 0 } [infoP "popup", .redraw] ∧
    panelTypeOf sPop "log" = some PanelType.Normal ∧
    handle_cmd_parts sPop ["p", "plugins", "popup", "ghost"]
      = .ok sPop [infoP "popup", .redraw] ∧
    warnCount [infoP "popup", .redraw] = 0 :=
  ⟨rfl, rfl, rfl, rfl⟩

lemma popup_cmd_found (s : Plugins) (name : String) (idx : Nat)
    (hterm : s.hasTerminal = true) (hdraw : drawOk s = true)
    (hfind : s.panels.findIdx? (fun p => p == name) = some idx) :
    handle_cmd_parts s ["p", "plugins", "popup", name]
      = .ok { s with active_popup := some idx } [infoP "popup", .redraw] := by
  rw [dispatch_popup_arg]
  have h1 : ({ s with active_popup := some idx } : Plugins).hasTerminal
      = true := hterm
  have h2 : drawOk { s with active_popup := some idx } = true := hdraw
  simp [handle_action_popup, hfind, redraw, h1, h2, Action.toStr, infoP]

lemma popup_cmd_missing (s : Plugins) (name : String)
    (hterm : s.hasTerminal = true) (hdraw : drawOk s = true)
    (hfind : s.panels.findIdx? (fun p => p == name) = none) :
    handle_cmd_parts s ["p", "plugins", "popup", name]
      = .ok s [infoP "popup", .redraw] := by
  rw [dispatch_popup_arg]
  simp [handle_action_popup, hfind, redraw, hterm, hdraw, Action.toStr, infoP]

lemma popup_cmd_clear (s : Plugins)
    (hterm : s.hasTerminal = true) (hdraw : drawOk s = true) :
    handle_cmd_parts s ["p", "plugins", "popup"]
      = .ok { s with active_popup := none } [infoP "popup", .redraw] := by
  rw [dispatch_popup_bare]
  have h1 : ({ s with active_popup := none } : Plugins).hasTerminal
      = true := hterm
  have h2 : drawOk { s with active_popup := none } = true := hdraw
  simp [handle_action_popup, redraw, h1, h2, Action.toStr, infoP]

/-- Claim C4 (amended): the reserved popup action sets `active_popup` to the
index of the first panel whose name matches the argument, whether or not
that panel is popup-typed; when the name matches no panel, no warning is
logged and `active_popup` is unchanged; an absent name argument clears the
popup; in every case it redraws. -/
theorem popup_behavior (s : Plugins) (hterm : s.hasTerminal = true)
    (hdraw : drawOk s = true) :
    (∀ name idx, s.panels.findIdx? (fun p => p == name) = some idx →
      handle_cmd_parts s ["p", "plugins", "popup", name]
        = .ok { s with active_popup := some idx } [infoP "popup", .redraw]) ∧
    (∀ name, s.panels.findIdx? (fun p => p == name) = none →
      handle_cmd_parts s ["p", "plugins", "popup", name]
        = .ok s [infoP "popup", .redraw]) ∧
    handle_cmd_parts s ["p", "plugins", "popup"]
      = .ok { s with active_popup := none } [infoP "popup", .redraw] :=
  ⟨fun name idx hfind => popup_cmd_found s name idx hterm hdraw hfind,
   fun name hfind => popup_cmd_missing s name hterm hdraw hfind,
   popup_cmd_clear s hterm hdraw⟩

/-- Witness for C4 (amended): all three behaviors at concrete inputs. -/
theorem popup_behavior_witness :
    (handle_cmd_parts sPop ["p", "plugins", "popup", "log"]
      = .ok { sPop with active_popup := some 0 } [infoP "popup", .redraw]) ∧
    (handle_cmd_parts sPop ["p", "plugins", "popup", "ghost"]
      = .ok sPop [infoP "popup", .redraw]) ∧
    (handle_cmd_parts sPop ["p", "plugins", "popup"]
      = .ok { sPop with active_popup := none } [infoP "popup", .redraw]) :=
  ⟨(popup_behavior sPop rfl rfl).1 "log" 0 rfl,
   (popup_behavior sPop rfl rfl).2.1 "ghost" rfl,
   (popup_behavior sPop rfl rfl).2.2⟩

/-- Counterexample to claim C6: a `gui` command whose `x` field is `200` —
an integer far outside 0–100 — is accepted and stored verbatim; the parser
performs no 0–100 range validation. -/
theorem gui_range_unchecked_counterexample :
    handle_action_gui "log" ["p", "log", "gui", "normal", "200", "0", "30", "40"]
      = .ok ⟨PanelType.Normal, 200, 0, 30, 40⟩
          [Emit.cmd "log" "p plugins insert_panel log"] ∧
    ¬ (200 ≤ 100) :=
  ⟨by decide, by decide⟩

/-- Claim C6 (amended): the parser accepts a `gui` command exactly when all
five fields are present, the panel type parses into the panel-type enum and
x, y, w, h parse as unsigned 16-bit integers — with no 0–100 range check —
and on acceptance returns the five parsed values as the panel geometry,
having emitted the `insert_panel` registration request; with any of the
five fields missing it warns and returns an error (present-but-unparseable
fields instead panic, see C7). -/
theorem gui_acceptance (name : String) (parts : List String) :
    (∀ info es, handle_action_gui name parts = .ok info es ↔
      (∃ pt x y w h, parts[3]? = some pt ∧ parts[4]? = some x
        ∧ parts[5]? = some y ∧ parts[6]? = some w ∧ parts[7]? = some h
        ∧ PanelType.fromStr pt = some info.panel_type
        ∧ parseU16 x = some info.x ∧ parseU16 y = some info.y
        ∧ parseU16 w = some info.w ∧ parseU16 h = some info.h
        ∧ es = [Emit.cmd name
            (constP ++ " plugins " ++ Action.InsertPanel.toStr ++ " " ++ name)])) ∧
    ((parts[3]? = none ∨ parts[4]? = none ∨ parts[5]? = none
        ∨ parts[6]? = none ∨ parts[7]? = none) →
      handle_action_gui name parts
        = .err [Emit.log .Warn name (msgMissingParameters
            "<panel_type> <x> <y> <width> <height>" Action.Gui.toStr
            (String.intercalate " " parts))]) := by
  constructor
  · intro info es
    constructor
    · intro hok
      simp only [handle_action_gui] at hok
      split at hok
      case h_2 => cases hok
      case h_1 pt x y w h h3 h4 h5 h6 h7 =>
        split at hok
        · cases hok
        case h_2 ptv hpt =>
          split at hok
          · cases hok
          case h_2 xv hx =>
            split at hok
            · cases hok
            case h_2 yv hy =>
              split at hok
              · cases hok
              case h_2 wv hw =>
                split at hok
                · cases hok
                case h_2 hv hh =>
                  cases hok
                  exact ⟨pt, x, y, w, h, h3, h4, h5, h6, h7,
                    hpt, hx, hy, hw, hh, rfl⟩
    · rintro ⟨pt, x, y, w, h, h3, h4, h5, h6, h7, hpt, hx, hy, hw, hh, hes⟩
      subst hes
      cases info
      simp [handle_action_gui, h3, h4, h5, h6, h7, hpt, hx, hy, hw, hh]
  · intro hmiss
    rcases hmiss with h | h | h | h | h
    · simp [handle_action_gui, h]
    · cases h3 : parts[3]? <;> simp [handle_action_gui, h3, h]
    · cases h3 : parts[3]? <;> cases h4 : parts[4]? <;>
        simp [handle_action_gui, h3, h4, h]
    · cases h3 : parts[3]? <;> cases h4 : parts[4]? <;> cases h5 : parts[5]? <;>
        simp [handle_action_gui, h3, h4, h5, h]
    · cases h3 : parts[3]? <;> cases h4 : parts[4]? <;> cases h5 : parts[5]? <;>
        cases h6 : parts[6]? <;> simp [handle_action_gui, h3, h4, h5, h6, h]

/-- Witness for C6 (amended): acceptance of `gui popup 5 6 70 80` and
rejection of a three-field command. -/
theorem gui_acceptance_witness :
    handle_action_gui "log" ["p", "log", "gui", "popup", "5", "6", "70", "80"]
      = .ok ⟨PanelType.Popup, 5, 6, 70, 80⟩
          [Emit.cmd "log"
            (constP ++ " plugins " ++ Action.InsertPanel.toStr ++ " " ++ "log")] ∧
    handle_action_gui "log" ["p", "log", "gui", "normal", "10"]
      = .err [Emit.log .Warn "log" (msgMissingParameters
          "<panel_type> <x> <y> <width> <height>" Action.Gui.toStr
          (String.intercalate " " ["p", "log", "gui", "normal", "10"]))] :=
  ⟨((gui_acceptance "log" ["p", "log", "gui", "popup", "5", "6", "70", "80"]).1
      ⟨PanelType.Popup, 5, 6, 70, 80⟩ _).mpr
    ⟨"popup", "5", "6", "70", "80", rfl, rfl, rfl, rfl, rfl,
      by decide, by decide, by decide, by decide, by decide, rfl⟩,
   (gui_acceptance "log" ["p", "log", "gui", "normal", "10"]).2
     (Or.inr (Or.inr (Or.inr (Or.inr rfl))))⟩

/-- Claim C7: a `gui` command with all five fields present but an invalid
panel-type keyword or a numeric field that fails to parse as an unsigned
integer aborts the whole process — the embedded `.unwrap()` calls panic —
rather than returning a recoverable error. -/
theorem gui_parse_failure_panics (name : String) (parts : List String)
    (pt x y w h : String)
    (h3 : parts[3]? = some pt) (h4 : parts[4]? = some x)
    (h5 : parts[5]? = some y) (h6 : parts[6]? = some w)
    (h7 : parts[7]? = some h)
    (hbad : PanelType.fromStr pt = none ∨ parseU16 x = none
      ∨ parseU16 y = none ∨ parseU16 w = none ∨ parseU16 h = none) :
    handle_action_gui name parts
      = .panicked [Emit.cmd name
          (constP ++ " plugins " ++ Action.InsertPanel.toStr ++ " " ++ name)] := by
  simp only [handle_action_gui, h3, h4, h5, h6, h7]
  rcases hbad with hb | hb | hb | hb | hb
  · simp [hb]
  · cases PanelType.fromStr pt <;> simp [hb]
  · cases PanelType.fromStr pt <;> cases parseU16 x <;> simp [hb]
  · cases PanelType.fromStr pt <;> cases parseU16 x <;> cases parseU16 y <;>
      simp [hb]
  · cases PanelType.fromStr pt <;> cases parseU16 x <;> cases parseU16 y <;>
      cases parseU16 w <;> simp [hb]

/-- Claim C5: from any reachable compositor state (`panel_order` has no
duplicates — an invariant of insertion), issuing `insert_panel <name>`
twice in a row yields a `panel_order` counting `<name>` exactly once; the
duplicate attempt emits the duplicate-panel warning and leaves the state —
in particular `panel_order` — unchanged.  The redraw hypotheses rule out
the orthogonal redraw panics (CLI mode, plugin without `panel_info`). -/
theorem insert_panel_idempotent_rejecting (s : Plugins) (name : String)
    (hnodup : s.panels.Nodup)
    (hterm : s.hasTerminal = true) (hdraw : drawOk s = true)
    (hnew : ∀ e, getPlugin s name = some e → e.panelInfo.isSome = true) :
    ∃ s1 es1,
      handle_cmd_parts s ["p", "plugins", "insert_panel", name] = .ok s1 es1 ∧
      handle_cmd_parts s1 ["p", "plugins", "insert_panel", name]
        = .ok s1 [infoP "insert_panel",
            warnP ("Panel `" ++ name ++ "` is already inserted.")] ∧
      s1.panels.count name = 1 := by
  by_cases hmem : name ∈ s.panels
  · refine ⟨s, [infoP "insert_panel",
      warnP ("Panel `" ++ name ++ "` is already inserted.")], ?_, ?_, ?_⟩
    · rw [dispatch_insert_panel]
      simp [handle_action_insert_panel, hmem, Action.toStr, infoP, warnP]
    · rw [dispatch_insert_panel]
      simp [handle_action_insert_panel, hmem, Action.toStr, infoP, warnP]
    · exact List.count_eq_one_of_mem hnodup hmem
  · have hdraw1 : drawOk { s with panels := s.panels ++ [name] } = true := by
      have hd : drawOk { s with panels := s.panels ++ [name] }
          = (s.panels ++ [name]).all (drawPred s) := rfl
      have hds : s.panels.all (drawPred s) = true := hdraw
      rw [hd, List.all_append, hds]
      simp only [List.all_cons, List.all_nil, Bool.and_true, Bool.true_and]
      unfold drawPred
      cases hg : getPlugin s name with
      | none => rfl
      | some e => exact hnew e hg
    have ht1 : ({ s with panels := s.panels ++ [name] } : Plugins).hasTerminal
        = true := hterm
    refine ⟨{ s with panels := s.panels ++ [name] },
      [infoP "insert_panel", infoP ("  - `" ++ name ++ "`"), .redraw],
      ?_, ?_, ?_⟩
    · rw [dispatch_insert_panel]
      have hred : redraw { s with panels := s.panels ++ [name] }
          = .ok { s with panels := s.panels ++ [name] } [.redraw] := by
        simp only [redraw, ht1, hdraw1]
        simp [hterm]
      simp [handle_action_insert_panel, hmem, hred, Action.toStr, infoP]
    · rw [dispatch_insert_panel]
      have hm1 : name ∈ ({ s with panels := s.panels ++ [name] } : Plugins).panels := by
        simp
      simp [handle_action_insert_panel, hm1, Action.toStr, infoP, warnP]
    · simp [List.count_append, List.count_eq_zero_of_not_mem hmem]

/-- Witness for C5: inserting the `log` panel twice from the empty state. -/
theorem insert_panel_idempotent_rejecting_witness :
    ∃ s1 es1,
      handle_cmd_parts sE ["p", "plugins", "insert_panel", "log"] = .ok s1 es1 ∧
      handle_cmd_parts s1 ["p", "plugins", "insert_panel", "log"]
        = .ok s1 [infoP "insert_panel",
            warnP ("Panel `" ++ "log" ++ "` is already inserted.")] ∧
      s1.panels.count "log" = 1 :=
  insert_panel_idempotent_rejecting sE "log" List.nodup_nil rfl rfl
    (fun e he => Option.noConfusion he)

lemma findIdx_name_get (l : List String) (name : String) (i : Nat)
    (h : l.findIdx? (fun p => p == name) = some i) : l[i]? = some name := by
  rw [List.findIdx?_eq_some_iff_getElem] at h
  obtain ⟨hlt, hp, -⟩ := h
  have hv : l[i] = name := by simpa using hp
  rw [List.getElem?_eq_getElem hlt, hv]

/-- Claim C3: at most one popup is active at any time — `active_popup` is a
single optional index — and after `popup <a>` then `popup <b>`, where both
names designate existing popup-typed panels, the active popup is exactly
the panel named `<b>` (and not `<a>` when the names differ). -/
theorem popup_last_wins (s : Plugins) (a b : String) (i j : Nat)
    (ha : s.panels.findIdx? (fun p => p == a) = some i)
    (hb : s.panels.findIdx? (fun p => p == b) = some j)
    (hat : panelTypeOf s a = some PanelType.Popup)
    (hbt : panelTypeOf s b = some PanelType.Popup)
    (hterm : s.hasTerminal = true) (hdraw : drawOk s = true) :
    ∃ es, runCmds s [["p", "plugins", "popup", a], ["p", "plugins", "popup", b]]
        = .ok { s with active_popup := some j } es ∧
      s.panels[j]? = some b ∧
      (a ≠ b → ¬ s.panels[j]? = some a) := by
  have hstep1 := popup_cmd_found s a i hterm hdraw ha
  have hterm1 : ({ s with active_popup := some i } : Plugins).hasTerminal
      = true := hterm
  have hdraw1 : drawOk { s with active_popup := some i } = true := hdraw
  have hb1 : ({ s with active_popup := some i } : Plugins).panels.findIdx?
      (fun p => p == b) = some j := hb
  have hstep2 := popup_cmd_found { s with active_popup := some i } b j
    hterm1 hdraw1 hb1
  have hget : s.panels[j]? = some b := findIdx_name_get s.panels b j hb
  refine ⟨[infoP "popup", .redraw] ++ [infoP "popup", .redraw], ?_, hget, ?_⟩
  · simp [runCmds, hstep1, hstep2]
  · intro hne hcontra
    rw [hget] at hcontra
    exact hne (Option.some.inj hcontra).symm

/-- Witness for C3: `popup editor` then `popup command`. -/
theorem popup_last_wins_witness :
    ∃ es, runCmds sPop2
        [["p", "plugins", "popup", "editor"], ["p", "plugins", "popup", "command"]]
        = .ok { sPop2 with active_popup := some 1 } es ∧
      sPop2.panels[1]? = some "command" ∧
      ("editor" ≠ "command" → ¬ sPop2.panels[1]? = some "editor") :=
  popup_last_wins sPop2 "editor" "command" 0 1 (by decide) (by decide)
    rfl rfl rfl rfl

/-- Witness for C7: `gui bogus 10 10 10 10` (invalid panel type) and
`gui normal 1a 10 10 10` (non-numeric x) both panic. -/
theorem gui_parse_failure_panics_witness :
    handle_action_gui "log" ["p", "log", "gui", "bogus", "10", "10", "10", "10"]
      = .panicked [Emit.cmd "log"
          (constP ++ " plugins " ++ Action.InsertPanel.toStr ++ " " ++ "log")] ∧
    handle_action_gui "log" ["p", "log", "gui", "normal", "1a", "10", "10", "10"]
      = .panicked [Emit.cmd "log"
          (constP ++ " plugins " ++ Action.InsertPanel.toStr ++ " " ++ "log")] :=
  ⟨gui_parse_failure_panics "log" _ "bogus" "10" "10" "10" "10"
     rfl rfl rfl rfl rfl (Or.inl (by decide)),
   gui_parse_failure_panics "log" _ "normal" "1a" "10" "10" "10"
     rfl rfl rfl rfl rfl (Or.inr (Or.inl (by decide)))⟩

/-- Witness for C10: `key tab` and `key up` on the empty panel list. -/
theorem empty_panels_key_panics_witness :
    handle_cmd_parts sE ["p", "plugins", "key", "tab"] = .panicked ∧
    handle_cmd_parts sE ["p", "plugins", "key", "up"] = .panicked :=
  ⟨(empty_panels_key_panics sE rfl rfl).1,
   (empty_panels_key_panics sE rfl rfl).2 "up" Key.Up rfl
     (by decide) (by decide)⟩

lemma rnd100_eq_round (n p : Nat) :
    rnd100 n p = (round ((n * p : ℚ) / 100)).toNat := by
  have h2 : ((n * p : ℚ) / 100) + 1 / 2
      = ((2 * (n * p) + 100 : ℕ) : ℚ) / ((200 : ℕ) : ℚ) := by
    push_cast
    ring
  rw [rnd100, round_eq, h2, Int.floor_toNat, Nat.floor_div_nat,
    Nat.floor_natCast]

/-- Claim C8: for every terminal size with usable height `H - 3` and every
percentage geometry, `caculate_position` computes the absolute rectangle
(before clamping) as the rounded products of the spec's formula
`round(W*x/100), round(H_usable*y/100), round(W*w/100), round(H_usable*h/100)`.
The Rust source computes in f32; on the whole u16 domain that computation
is exact (see the comment on `rnd100`), so the embedding is the exact
rounding, proved here equal to the rational `round` of the spec. -/
theorem caculate_position_spec (W H x y w h : Nat) (hH : 3 ≤ H) :
    caculate_position W H x y w h
      = ((specRound W x).toNat, (specRound (H - 3) y).toNat,
         (specRound W w).toNat, (specRound (H - 3) h).toNat) := by
  simp [caculate_position, specRound, rnd100_eq_round]

/-- Witness for C8: an 80x24 terminal and the `gui normal 10 20 30 40`
geometry; the top-left lands at `(8, 4) = (round(80*0.10), round(21*0.20))`. -/
theorem caculate_position_spec_witness :
    3 ≤ 24 ∧
    caculate_position 80 24 10 20 30 40
      = ((specRound 80 10).toNat, (specRound 21 20).toNat,
         (specRound 80 30).toNat, (specRound 21 40).toNat) ∧
    caculate_position 80 24 10 20 30 40 = (8, 4, 24, 8) :=
  ⟨by decide, caculate_position_spec 80 24 10 20 30 40 (by decide), by decide⟩

lemma tabLoop_stop_normal (s : Plugins) :
    ∀ (fuel i j : Nat), tabLoop s i fuel = .stop j →
      panelTypeAt s j = some PanelType.Normal := by
  intro fuel
  induction fuel with
  | zero =>
    intro i j h
    exact TabRes.noConfusion h
  | succ fuel ih =>
    intro i j h
    simp only [tabLoop] at h
    split at h
    · exact ih i j h
    · rename_i e he
      split at h
      · exact TabRes.noConfusion h
      · rename_i pinfo hpi
        split at h
        · exact ih _ j h
        · rename_i hpt
          cases h
          simp only [panelTypeAt, panelTypeOf, he, hpi, Option.map_some']
          rw [hpt]

lemma insert_panel_cmd_get3 (name : String) :
    (["p", "plugins", "insert_panel", name] : List String)[3]? = some name := rfl

lemma tab_ok_normal (s s' : Plugins) (es : List Emit)
    (hpop : s.active_popup = none)
    (h : handle_action_key_tab s = .ok s' es) :
    panelTypeAt s' s'.active_panel = some PanelType.Normal := by
  simp only [handle_action_key_tab, hpop] at h
  split at h
  · exact Outcome.noConfusion h
  · split at h
    next i hstop =>
      have hn := tabLoop_stop_normal s _ _ i hstop
      simp only [redraw] at h
      split at h
      · cases h
        exact hn
      · exact Outcome.noConfusion h
    next hstop => exact Outcome.noConfusion h
    next hstop => exact Outcome.noConfusion h

lemma op_preserves_popup (s s' : Plugins) (es : List Emit) (op : PanelOp)
    (h : handle_cmd_parts s op.toCmd = .ok s' es) :
    s'.active_popup = s.active_popup := by
  cases op with
  | insPanel name =>
    rw [PanelOp.toCmd, dispatch_insert_panel] at h
    simp only [handle_action_insert_panel, insert_panel_cmd_get3] at h
    split at h
    · cases h
      rfl
    · simp only [redraw] at h
      split at h
      · rename_i x s2 e2 heq
        cases h
        split at heq
        · cases heq
          rfl
        · exact Outcome.noConfusion heq
      · rename_i x hcontra
        exact absurd h (hcontra s' es)
  | tabKey =>
    rw [PanelOp.toCmd, dispatch_key_tab] at h
    simp only [handle_action_key_tab] at h
    split at h
    next ap hap =>
      simp only [redraw] at h
      split at h
      · cases h
        rfl
      · exact Outcome.noConfusion h
    next hap =>
      split at h
      · exact Outcome.noConfusion h
      · split at h
        next i hstop =>
          simp only [redraw] at h
          split at h
          · cases h
            rfl
          · exact Outcome.noConfusion h
        next hstop => exact Outcome.noConfusion h
        next hstop => exact Outcome.noConfusion h

lemma runCmds_append_last (s : Plugins) (cmds : List (List String))
    (c : List String) (s' : Plugins) (es : List Emit)
    (h : runCmds s (cmds ++ [c]) = .ok s' es) :
    ∃ sm es1 es2, runCmds s cmds = .ok sm es1
      ∧ handle_cmd_parts sm c = .ok s' es2 := by
  induction cmds generalizing s es with
  | nil =>
    simp only [List.nil_append, runCmds] at h
    split at h
    next s1 e1 hc =>
      cases h
      exact ⟨s, [], e1, rfl, hc⟩
    next hc => exact Outcome.noConfusion h
    next hc => exact Outcome.noConfusion h
  | cons c0 rest ih =>
    simp only [List.cons_append, runCmds] at h
    split at h
    next s1 e1 hc0 =>
      split at h
      · rename_i x s2 e2 hr
        cases h
        obtain ⟨sm, f1, f2, hm1, hm2⟩ := ih s1 e2 hr
        refine ⟨sm, e1 ++ f1, f2, ?_, hm2⟩
        simp [runCmds, hc0, hm1]
      · rename_i x hcontra
        exact absurd h (hcontra s' es)
    next hc0 => exact Outcome.noConfusion h
    next hc0 => exact Outcome.noConfusion h

lemma run_preserves_popup_none (ops : List PanelOp) :
    ∀ (s s' : Plugins) (es : List Emit), s.active_popup = none →
      runCmds s (ops.map PanelOp.toCmd) = .ok s' es →
      s'.active_popup = none := by
  induction ops with
  | nil =>
    intro s s' es hpop h
    simp only [List.map_nil, runCmds] at h
    cases h
    exact hpop
  | cons op rest ih =>
    intro s s' es hpop h
    simp only [List.map_cons, runCmds] at h
    split at h
    next s1 e1 h1 =>
      have hp1 : s1.active_popup = none := by
        rw [op_preserves_popup s s1 e1 op h1]
        exact hpop
      split at h
      · rename_i x s2 e2 h2
        cases h
        exact ih s1 _ e2 hp1 h2
      · rename_i x hcontra
        exact absurd h (hcontra s' es)
    next h1 => exact Outcome.noConfusion h
    next h1 => exact Outcome.noConfusion h

/-- Claim C2: for any sequence of `insert_panel` insertions and tab key
presses from a state with no active popup, whenever the final tab completes
(in particular whenever at least one non-popup panel exists and every panel
is backed by a panelled plugin — otherwise the tab loop panics or spins
forever and there is no "after"), the resulting `active_panel` index never
designates a popup-typed panel: the tab loop only breaks on a Normal-typed
panel. -/
theorem tab_never_selects_popup (s : Plugins) (hpop : s.active_popup = none)
    (ops : List PanelOp) (s' : Plugins) (es : List Emit)
    (hrun : runCmds s (ops.map PanelOp.toCmd ++ [PanelOp.tabKey.toCmd])
      = .ok s' es) :
    ¬ panelTypeAt s' s'.active_panel = some PanelType.Popup := by
  obtain ⟨sm, es1, es2, h1, h2⟩ :=
    runCmds_append_last s (ops.map PanelOp.toCmd) PanelOp.tabKey.toCmd s' es hrun
  have hpm : sm.active_popup = none :=
    run_preserves_popup_none ops s sm es1 hpop h1
  have h2' : handle_action_key_tab sm = .ok s' es2 := h2
  have hn := tab_ok_normal sm s' es2 hpm h2'
  rw [hn]
  simp

/-- Witness for C2: insert the `log` panel, press tab; the run completes
and the active panel is not popup-typed. -/
theorem tab_never_selects_popup_witness :
    runCmds sW ([PanelOp.insPanel "log"].map PanelOp.toCmd
        ++ [PanelOp.tabKey.toCmd])
      = .ok sTabFinal
          [infoP "insert_panel", infoP ("  - `" ++ "log" ++ "`"),
           .redraw, .redraw] ∧
    ¬ panelTypeAt sTabFinal sTabFinal.active_panel = some PanelType.Popup :=
  ⟨rfl,
   tab_never_selects_popup sW rfl [PanelOp.insPanel "log"] sTabFinal
     [infoP "insert_panel", infoP ("  - `" ++ "log" ++ "`"), .redraw, .redraw]
     rfl⟩

end Cng4
